import Mathlib

/-!
# fsKeyValueStore: the file persistence layer

A shallow embedding of `persistence.go`: the methods `create`, `read`, `update`,
`remove`, `exists` and `createIfNonExistentElseUpdate` of `filePersistence`, written as
state-passing functions over a model of the scribble driver the Go code delegates to.
The driver may fault on any of its calls: `Write` and `Delete` follow one script of
outcomes, the `Read` calls on a record follow the script of that record.
-/

namespace FsKeyValueStore

/-- The Go struct `record` of persistence.go: the payload stored for one key. -/
structure record where
  Value : String
deriving DecidableEq, Repr

/-- A Go `error` value. `errorsNew text` is `errors.New(text)` as built in persistence.go;
the other two constructors are errors handed back by the driver: `noRecord` when the
requested record is not stored, `ioFault` for any other failure of the storage. -/
inductive GoError where
  | errorsNew (text : String)
  | noRecord (collection resource : String)
  | ioFault (text : String)
deriving DecidableEq, Repr

/-- One call made on the driver, as it appears in the call log. -/
inductive DriverCall where
  | Write (collection resource : String) (v : record)
  | Read (collection resource : String)
  | Delete (collection resource : String)
deriving DecidableEq, Repr

/-- Modelled from the spec: the scribble driver (`*scribble.Driver`, an external package
whose code is not part of the repository) as the abstract durable-record backend with the
capabilities write-record, read-record and delete-record. It holds one independent record
per collection and resource name (`files`), a script of the outcomes of the coming `Write`
and `Delete` calls (`faults`), for every record a script of the outcomes of the coming
`Read` calls on it (`readFaults`), and the log of the calls made so far (`calls`). In a
script an entry `some text` makes the call fail with an I/O fault (disk, permission,
decode failure); an entry `none` or an exhausted script lets it go through. -/
structure Driver where
  files : String → String → Option record
  faults : List (Option String)
  readFaults : String → String → List (Option String)
  calls : List DriverCall

/-- The outcome scripted for the next `Write` or `Delete` call: `some text` is a fault. -/
def Driver.nextFault (db : Driver) : Option String :=
  match db.faults with
  | some text :: _ => some text
  | _ => none

/-- The outcome scripted for the `Read` call on a record that comes after `n` further
`Read` calls on it (`n = 0`: the next one): `some text` is a fault. -/
def Driver.readFault (db : Driver) (collection resource : String) (n : Nat) : Option String :=
  match (db.readFaults collection resource).drop n with
  | some text :: _ => some text
  | _ => none

/-- Modelled from the spec: the driver call `Write(collection, resource, v)`. The call is
logged and consumes one entry of the fault script; unless that entry is a fault, the record
is stored under the collection and resource name, replacing an older one. -/
def Driver.Write (db : Driver) (collection resource : String) (v : record) :
    Option GoError × Driver :=
  let calls := db.calls ++ [DriverCall.Write collection resource v]
  match db.nextFault with
  | some text =>
    (some (GoError.ioFault text),
      { files := db.files, faults := db.faults.tail, readFaults := db.readFaults,
        calls := calls })
  | none =>
    (none,
      { files := fun c r => if c = collection ∧ r = resource then some v else db.files c r,
        faults := db.faults.tail,
        readFaults := db.readFaults,
        calls := calls })

/-- Modelled from the spec: the driver call `Read(collection, resource, &r)`. The call is
logged and consumes one entry of the read script of the record. It fails with the
no-such-record error when no record is stored under the name, and with an I/O fault when
a record is stored and the consumed entry is a fault; otherwise it yields the stored
record. -/
def Driver.Read (db : Driver) (collection resource : String) : Except GoError record × Driver :=
  let logged : Driver :=
    { files := db.files, faults := db.faults,
      readFaults := fun c r =>
        if c = collection ∧ r = resource then (db.readFaults c r).tail else db.readFaults c r,
      calls := db.calls ++ [DriverCall.Read collection resource] }
  match db.files collection resource with
  | none => (Except.error (GoError.noRecord collection resource), logged)
  | some r =>
    match db.readFault collection resource 0 with
    | some text => (Except.error (GoError.ioFault text), logged)
    | none => (Except.ok r, logged)

/-- Modelled from the spec: the driver call `Delete(collection, resource)`. The call is
logged; it fails when no record is stored under the name, otherwise it consumes one entry
of the fault script and, unless that entry is a fault, removes the record. -/
def Driver.Delete (db : Driver) (collection resource : String) : Option GoError × Driver :=
  let calls := db.calls ++ [DriverCall.Delete collection resource]
  match db.files collection resource with
  | none =>
    (some (GoError.noRecord collection resource),
      { files := db.files, faults := db.faults, readFaults := db.readFaults, calls := calls })
  | some _ =>
    match db.nextFault with
    | some text =>
      (some (GoError.ioFault text),
        { files := db.files, faults := db.faults.tail, readFaults := db.readFaults,
          calls := calls })
    | none =>
      (none,
        { files := fun c r => if c = collection ∧ r = resource then none else db.files c r,
          faults := db.faults.tail,
          readFaults := db.readFaults,
          calls := calls })

/-- The Go struct `filePersistence`: the directory and the driver bound to it. -/
structure filePersistence where
  dir : String
  db : Driver

/-- The method `read` of persistence.go: rejects the empty key, else asks the driver for
the record of collection "record" and returns its `Value`. The result pair is Go's
`(string, error)`, with `none` for a nil error. -/
def filePersistence.read (fp : filePersistence) (key : String) :
    (String × Option GoError) × filePersistence :=
  if key = "" then
    (("", some (GoError.errorsNew "Emtpy string given as key")), fp)
  else
    match fp.db.Read "record" key with
    | (Except.error err, db) => (("", some err), { dir := fp.dir, db := db })
    | (Except.ok r, db) => ((r.Value, none), { dir := fp.dir, db := db })

/-- The method `exists` of persistence.go: true exactly when `read` returns no error. -/
def filePersistence.exists (fp : filePersistence) (key : String) : Bool × filePersistence :=
  match fp.read key with
  | ((_, some _), fp1) => (false, fp1)
  | ((_, none), fp1) => (true, fp1)

/-- The method `create` of persistence.go: the existence check comes first, then the
empty-key check, then the driver write. -/
def filePersistence.create (fp : filePersistence) (key value : String) :
    Option GoError × filePersistence :=
  match fp.exists key with
  | (true, fp1) => (some (GoError.errorsNew "Already exists"), fp1)
  | (false, fp1) =>
    if key = "" then
      (some (GoError.errorsNew "Empty string given as key"), fp1)
    else
      match fp1.db.Write "record" key { Value := value } with
      | (some err, db) => (some err, { dir := fp1.dir, db := db })
      | (none, db) => (none, { dir := fp1.dir, db := db })

/-- The method `update` of persistence.go: the existence check comes first, then the
empty-key check, then the driver write. -/
def filePersistence.update (fp : filePersistence) (key value : String) :
    Option GoError × filePersistence :=
  match fp.exists key with
  | (false, fp1) => (some (GoError.errorsNew "Can't update, key doesn't exist"), fp1)
  | (true, fp1) =>
    if key = "" then
      (some (GoError.errorsNew "Empty string given as key"), fp1)
    else
      match fp1.db.Write "record" key { Value := value } with
      | (some err, db) => (some err, { dir := fp1.dir, db := db })
      | (none, db) => (none, { dir := fp1.dir, db := db })

/-- The method `remove` of persistence.go: the existence check comes first, then the
empty-key check, then the driver delete. -/
def filePersistence.remove (fp : filePersistence) (key : String) :
    Option GoError × filePersistence :=
  match fp.exists key with
  | (false, fp1) => (some (GoError.errorsNew "Can't delete, key doesn't exist"), fp1)
  | (true, fp1) =>
    if key = "" then
      (some (GoError.errorsNew "Empty string given as key"), fp1)
    else
      match fp1.db.Delete "record" key with
      | (some err, db) => (some err, { dir := fp1.dir, db := db })
      | (none, db) => (none, { dir := fp1.dir, db := db })

/-- The method `createIfNonExistentElseUpdate` of persistence.go: `update` when the key
exists, `create` otherwise; the error of the chosen call is returned as it is. -/
def filePersistence.createIfNonExistentElseUpdate (fp : filePersistence) (key value : String) :
    Option GoError × filePersistence :=
  match fp.exists key with
  | (true, fp1) =>
    match fp1.update key value with
    | (some err, fp2) => (some err, fp2)
    | (none, fp2) => (none, fp2)
  | (false, fp1) =>
    match fp1.create key value with
    | (some err, fp2) => (some err, fp2)
    | (none, fp2) => (none, fp2)

/-- The error kinds of the specification's error taxonomy. -/
inductive ErrorKind where
  | EmptyKey
  | AlreadyExists
  | NotFound
  | StorageFault
deriving DecidableEq, Repr

/-- The kind a caller can read off an error: the texts are those of persistence.go; a
driver error for a record that is not stored counts as not found. -/
def GoError.kind : GoError → ErrorKind
  | GoError.errorsNew text =>
    if text = "Empty string given as key" ∨ text = "Emtpy string given as key" then
      ErrorKind.EmptyKey
    else if text = "Already exists" then
      ErrorKind.AlreadyExists
    else if text = "Can't update, key doesn't exist" ∨ text = "Can't delete, key doesn't exist" then
      ErrorKind.NotFound
    else
      ErrorKind.StorageFault
  | GoError.noRecord _ _ => ErrorKind.NotFound
  | GoError.ioFault _ => ErrorKind.StorageFault

/-- A store over directory "db" with no record, no scripted fault and an empty call log. -/
def emptyStore : filePersistence :=
  { dir := "db",
    db := { files := fun _ _ => none, faults := [], readFaults := fun _ _ => [], calls := [] } }

/-- A store holding the one record "a" with value "1", with no scripted fault. -/
def singleStore : filePersistence :=
  { dir := "db",
    db :=
      { files := fun c r => if c = "record" ∧ r = "a" then some { Value := "1" } else none,
        faults := [],
        readFaults := fun _ _ => [],
        calls := [] } }

/-- A store holding the one record "a" with value "1", whose script lets the next `Write`
or `Delete` call succeed and makes the one after it fail with an I/O fault. -/
def faultyStore : filePersistence :=
  { dir := "db",
    db :=
      { files := fun c r => if c = "record" ∧ r = "a" then some { Value := "1" } else none,
        faults := [none, some "disk full"],
        readFaults := fun _ _ => [],
        calls := [] } }

/-- A store with no record, in which the second `Read` call on the record "a" fails with
an I/O fault. -/
def flakyStore : filePersistence :=
  { dir := "db",
    db :=
      { files := fun _ _ => none,
        faults := [],
        readFaults := fun c r =>
          if c = "record" ∧ r = "a" then [none, some "input/output error"] else [],
        calls := [] } }

/-- A store holding the one record "a" with value "1", in which the second `Read` call on
that record fails with an I/O fault. -/
def flakySingleStore : filePersistence :=
  { dir := "db",
    db :=
      { files := fun c r => if c = "record" ∧ r = "a" then some { Value := "1" } else none,
        faults := [],
        readFaults := fun c r =>
          if c = "record" ∧ r = "a" then [none, some "input/output error"] else [],
        calls := [] } }

/-- Two stores with the same directory, the same records and the same script for `Write`
and `Delete`: they differ at most in the log of the driver calls made so far and in how
much of the read scripts is consumed. -/
def sameStore (fp1 fp : filePersistence) : Prop :=
  fp1.dir = fp.dir ∧ fp1.db.files = fp.db.files ∧ fp1.db.faults = fp.db.faults

/-! ## Shape of the single operations -/

theorem read_empty (fp : filePersistence) :
    fp.read "" = (("", some (GoError.errorsNew "Emtpy string given as key")), fp) := by
  simp [filePersistence.read]

theorem exists_empty (fp : filePersistence) : fp.exists "" = (false, fp) := by
  simp [filePersistence.exists, read_empty]

/-- The result of `read` for a non-empty key, from the record and the next entry of its
read script. -/
theorem read_fst (fp : filePersistence) (key : String) (hk : key ≠ "") :
    (fp.read key).1 =
      match fp.db.files "record" key with
      | none => ("", some (GoError.noRecord "record" key))
      | some r =>
        match fp.db.readFault "record" key 0 with
        | some text => ("", some (GoError.ioFault text))
        | none => (r.Value, none) := by
  obtain ⟨d, f, s, rs, c⟩ := fp
  cases hf : f "record" key <;> rcases hrs : rs "record" key with _ | ⟨_ | t, rest⟩ <;>
    simp_all [filePersistence.read, Driver.Read, Driver.readFault]

/-- The existence check says true exactly when `read` returns no error. -/
theorem exists_fst_eq (fp : filePersistence) (key : String) :
    (fp.exists key).1 = decide ((fp.read key).1.2 = none) := by
  unfold filePersistence.exists
  rcases hr : fp.read key with ⟨⟨s, e⟩, st⟩
  cases e <;> simp

/-- A read of a stored record whose next read does not fault returns the stored value. -/
theorem read_stored (fp : filePersistence) (key : String) (r : record) (hk : key ≠ "")
    (h : fp.db.files "record" key = some r) (hr : fp.db.readFault "record" key 0 = none) :
    (fp.read key).1 = (r.Value, none) := by
  rw [read_fst fp key hk, h, hr]

/-- The existence check of a non-empty key without record says false, whatever the read
script. -/
theorem exists_absent (fp : filePersistence) (key : String) (hk : key ≠ "")
    (h : fp.db.files "record" key = none) : (fp.exists key).1 = false := by
  rw [exists_fst_eq, read_fst fp key hk, h]
  simp

/-- The upsert is the update of the state left by its existence check when that check
says true, and the create of that state otherwise. -/
theorem createIfNonExistentElseUpdate_eq (fp : filePersistence) (key value : String) :
    fp.createIfNonExistentElseUpdate key value =
      if (fp.exists key).1 = true then (fp.exists key).2.update key value
      else (fp.exists key).2.create key value := by
  unfold filePersistence.createIfNonExistentElseUpdate
  rcases he : fp.exists key with ⟨b, st⟩
  cases b
  · rcases hc : st.create key value with ⟨e, st2⟩
    cases e <;> simp [hc]
  · rcases hc : st.update key value with ⟨e, st2⟩
    cases e <;> simp [hc]

/-- Frame of the driver calls behind the existence check and the three mutating methods:
the record of another key of collection "record", and its read script, are the ones they
were. -/
theorem other_record_frame (fp : filePersistence) (key key2 value : String)
    (hne : key ≠ key2) :
    ((fp.exists key).2.db.files "record" key2 = fp.db.files "record" key2
        ∧ (fp.exists key).2.db.readFaults "record" key2 = fp.db.readFaults "record" key2)
      ∧ ((fp.create key value).2.db.files "record" key2 = fp.db.files "record" key2
        ∧ (fp.create key value).2.db.readFaults "record" key2
            = fp.db.readFaults "record" key2)
      ∧ ((fp.update key value).2.db.files "record" key2 = fp.db.files "record" key2
        ∧ (fp.update key value).2.db.readFaults "record" key2
            = fp.db.readFaults "record" key2)
      ∧ ((fp.remove key).2.db.files "record" key2 = fp.db.files "record" key2
        ∧ (fp.remove key).2.db.readFaults "record" key2 = fp.db.readFaults "record" key2) := by
  have hne2 : ¬ key2 = key := fun h => hne h.symm
  obtain ⟨d, f, s, rs, c⟩ := fp
  by_cases hk : key = ""
  · subst hk
    simp [filePersistence.create, filePersistence.update, filePersistence.remove, exists_empty]
  · cases hf : f "record" key <;> rcases s with _ | ⟨_ | t, rest⟩ <;>
      rcases hrs : rs "record" key with _ | ⟨_ | t1, rest1⟩ <;>
      simp_all [filePersistence.create, filePersistence.update, filePersistence.remove,
        filePersistence.exists, filePersistence.read,
        Driver.Read, Driver.Write, Driver.Delete, Driver.nextFault, Driver.readFault]

/-- The result of `read` depends on the record of the key and on its read script only. -/
theorem read_fst_congr (fp fp1 : filePersistence) (key : String)
    (h : fp1.db.files "record" key = fp.db.files "record" key)
    (hr : fp1.db.readFaults "record" key = fp.db.readFaults "record" key) :
    (fp1.read key).1 = (fp.read key).1 := by
  by_cases hk : key = ""
  · subst hk
    simp [read_empty]
  · rw [read_fst fp key hk, read_fst fp1 key hk, h]
    simp only [Driver.readFault, hr]

/-- A create of a non-empty key without record, with no fault on the driver write: it
succeeds whatever the read script and stores the value; a following read returns the value
when it does not fault, and the driver's fault when it does. -/
theorem create_absent (fp : filePersistence) (key value : String) (hk : key ≠ "")
    (habs : fp.db.files "record" key = none) (hw : fp.db.nextFault = none) :
    (fp.create key value).1 = none
      ∧ (fp.create key value).2.db.files "record" key = some { Value := value }
      ∧ ((fp.create key value).2.db.readFault "record" key 0 = none →
          ((fp.create key value).2.read key).1 = (value, none))
      ∧ (∀ text, (fp.create key value).2.db.readFault "record" key 0 = some text →
          ((fp.create key value).2.read key).1 = ("", some (GoError.ioFault text))) := by
  have h1 : (fp.create key value).1 = none
      ∧ (fp.create key value).2.db.files "record" key = some { Value := value } := by
    obtain ⟨d, f, s, rs, c⟩ := fp
    rcases s with _ | ⟨_ | t, rest⟩ <;>
      simp_all [filePersistence.create, filePersistence.exists, filePersistence.read,
        Driver.Read, Driver.Write, Driver.nextFault, Driver.readFault]
  refine ⟨h1.1, h1.2, ?_, ?_⟩
  · intro hr
    exact read_stored _ key _ hk h1.2 hr
  · intro text hr
    rw [read_fst _ key hk, h1.2, hr]

/-- A create that returned no error was given a non-empty key and has stored the value. -/
theorem create_ok_inv (fp : filePersistence) (key value : String)
    (hc : (fp.create key value).1 = none) :
    key ≠ "" ∧ (fp.create key value).2.db.files "record" key = some { Value := value } := by
  obtain ⟨d, f, s, rs, c⟩ := fp
  by_cases hk : key = ""
  · subst hk
    simp [filePersistence.create, exists_empty] at hc
  · refine ⟨hk, ?_⟩
    cases hf : f "record" key <;> rcases s with _ | ⟨_ | t, rest⟩ <;>
      rcases hrs : rs "record" key with _ | ⟨_ | t1, rest1⟩ <;>
      simp_all [filePersistence.create, filePersistence.exists, filePersistence.read,
        Driver.Read, Driver.Write, Driver.nextFault, Driver.readFault]

/-- A create of a stored non-empty key whose existence check reads without fault: it
fails with the already-exists error and leaves the records as they are. -/
theorem create_present (fp : filePersistence) (key value : String) (r : record)
    (hk : key ≠ "") (h : fp.db.files "record" key = some r)
    (hr : fp.db.readFault "record" key 0 = none) :
    (fp.create key value).1 = some (GoError.errorsNew "Already exists")
      ∧ (fp.create key value).2.db.files = fp.db.files := by
  obtain ⟨d, f, s, rs, c⟩ := fp
  rcases hrs : rs "record" key with _ | ⟨_ | t1, rest1⟩ <;>
    simp_all [filePersistence.create, filePersistence.exists, filePersistence.read,
      Driver.Read, Driver.readFault]

/-! ## Create, read, update, remove -/

/-- C1: for a non-empty key with no record in the store and any value (the empty string
included), when the driver write does not fault, `create` returns no error and stores the
value, and a following `read` of the key that the driver does not fault returns exactly
that value with no error; a `read` that the driver faults hands back the driver's fault. -/
theorem create_then_read (fp : filePersistence) (k v : String) (hk : k ≠ "")
    (habs : fp.db.files "record" k = none) (hw : fp.db.nextFault = none) :
    (fp.create k v).1 = none
      ∧ (fp.create k v).2.db.files "record" k = some { Value := v }
      ∧ ((fp.create k v).2.db.readFault "record" k 0 = none →
          ((fp.create k v).2.read k).1 = (v, none))
      ∧ (∀ text, (fp.create k v).2.db.readFault "record" k 0 = some text →
          ((fp.create k v).2.read k).1 = ("", some (GoError.ioFault text))) :=
  create_absent fp k v hk habs hw

theorem create_then_read_witness :
    ("a" ≠ "" ∧ emptyStore.db.files "record" "a" = none ∧ emptyStore.db.nextFault = none
        ∧ (emptyStore.create "a" "").2.db.readFault "record" "a" 0 = none)
      ∧ (emptyStore.create "a" "").1 = none
      ∧ ((emptyStore.create "a" "").2.read "a").1 = ("", none) :=
  have h := create_then_read emptyStore "a" "" (by decide) rfl rfl
  ⟨⟨by decide, rfl, rfl, by decide⟩, h.1, h.2.2.1 (by decide)⟩

/-- C2, as the code has it: with the empty string as key, `create`, `read` and
`createIfNonExistentElseUpdate` fail with an empty-key error, while `update` and `remove`
fail with their key-doesn't-exist errors, of kind not found: their existence check comes
before their empty-key check and is false for the empty key. -/
theorem empty_key_errors (fp : filePersistence) (v : String) :
    (fp.create "" v).1 = some (GoError.errorsNew "Empty string given as key")
      ∧ (fp.read "").1 = ("", some (GoError.errorsNew "Emtpy string given as key"))
      ∧ (fp.createIfNonExistentElseUpdate "" v).1
          = some (GoError.errorsNew "Empty string given as key")
      ∧ (fp.update "" v).1 = some (GoError.errorsNew "Can't update, key doesn't exist")
      ∧ (fp.remove "").1 = some (GoError.errorsNew "Can't delete, key doesn't exist")
      ∧ (GoError.errorsNew "Empty string given as key").kind = ErrorKind.EmptyKey
      ∧ (GoError.errorsNew "Emtpy string given as key").kind = ErrorKind.EmptyKey
      ∧ (GoError.errorsNew "Can't update, key doesn't exist").kind = ErrorKind.NotFound
      ∧ (GoError.errorsNew "Can't delete, key doesn't exist").kind = ErrorKind.NotFound := by
  refine ⟨?_, ?_, ?_, ?_, ?_, by decide, by decide, by decide, by decide⟩
  · simp [filePersistence.create, exists_empty]
  · simp [read_empty]
  · simp [createIfNonExistentElseUpdate_eq, filePersistence.create, exists_empty]
  · simp [filePersistence.update, exists_empty]
  · simp [filePersistence.remove, exists_empty]

/-- C3, as stated, fails when the driver faults on the read behind the existence check of
the second `create`: in `flakyStore` the first `create` of "a" succeeds, the second one
takes the failed read for a missing key, returns no error instead of the already-exists
error and overwrites the record, and `read` then returns the second value. -/
theorem create_twice_read_fault :
    (flakyStore.create "a" "1").1 = none
      ∧ ((flakyStore.create "a" "1").2.create "a" "2").1 = none
      ∧ ((flakyStore.create "a" "1").2.create "a" "2").1
          ≠ some (GoError.errorsNew "Already exists")
      ∧ (((flakyStore.create "a" "1").2.create "a" "2").2.read "a").1 = ("2", none)
      ∧ (((flakyStore.create "a" "1").2.create "a" "2").2.read "a").1 ≠ ("1", none) := by
  decide

/-- C3, amended: when `create` of a key succeeded and the driver does not fault the read
behind the existence check of a following `create` of the same key, that `create` fails
with the already-exists error for any value and the stored value remains the one of the
first call: `read` of the key returns it when the driver does not fault that read. -/
theorem create_twice (fp : filePersistence) (k v v2 : String)
    (hc : (fp.create k v).1 = none)
    (hr : (fp.create k v).2.db.readFault "record" k 0 = none) :
    ((fp.create k v).2.create k v2).1 = some (GoError.errorsNew "Already exists")
      ∧ (GoError.errorsNew "Already exists").kind = ErrorKind.AlreadyExists
      ∧ ((fp.create k v).2.create k v2).2.db.files "record" k = some { Value := v }
      ∧ (((fp.create k v).2.create k v2).2.db.readFault "record" k 0 = none →
          (((fp.create k v).2.create k v2).2.read k).1 = (v, none)) := by
  obtain ⟨hk, hst⟩ := create_ok_inv fp k v hc
  obtain ⟨h1, h2⟩ := create_present (fp.create k v).2 k v2 _ hk hst hr
  have h3 : ((fp.create k v).2.create k v2).2.db.files "record" k = some { Value := v } := by
    rw [h2, hst]
  refine ⟨h1, by decide, h3, ?_⟩
  intro hr2
  exact read_stored _ k _ hk h3 hr2

theorem create_twice_witness :
    ((emptyStore.create "a" "1").1 = none
        ∧ (emptyStore.create "a" "1").2.db.readFault "record" "a" 0 = none
        ∧ ((emptyStore.create "a" "1").2.create "a" "2").2.db.readFault "record" "a" 0 = none)
      ∧ ((emptyStore.create "a" "1").2.create "a" "2").1
          = some (GoError.errorsNew "Already exists")
      ∧ (((emptyStore.create "a" "1").2.create "a" "2").2.read "a").1 = ("1", none) :=
  have h := create_twice emptyStore "a" "1" "2" (by decide) (by decide)
  ⟨⟨by decide, by decide, by decide⟩, h.1, h.2.2.2 (by decide)⟩

/-- C4: for a non-empty key with no record in the store, `read` fails with the driver's
no-such-record error, `update` and `remove` fail with their key-doesn't-exist errors, for
every value; each of the three errors is of kind not found. -/
theorem absent_key_not_found (fp : filePersistence) (k v : String) (hk : k ≠ "")
    (habs : fp.db.files "record" k = none) :
    ((fp.read k).1 = ("", some (GoError.noRecord "record" k))
        ∧ (fp.update k v).1 = some (GoError.errorsNew "Can't update, key doesn't exist")
        ∧ (fp.remove k).1 = some (GoError.errorsNew "Can't delete, key doesn't exist"))
      ∧ ((fp.read k).1.2.map GoError.kind = some ErrorKind.NotFound
        ∧ (fp.update k v).1.map GoError.kind = some ErrorKind.NotFound
        ∧ (fp.remove k).1.map GoError.kind = some ErrorKind.NotFound) := by
  have he := exists_absent fp k hk habs
  have h1 : (fp.read k).1 = ("", some (GoError.noRecord "record" k)) := by
    rw [read_fst fp k hk, habs]
  have h2 : (fp.update k v).1 = some (GoError.errorsNew "Can't update, key doesn't exist") := by
    unfold filePersistence.update
    rcases hx : fp.exists k with ⟨b, st⟩
    rw [hx] at he
    simp only at he
    subst he
    rfl
  have h3 : (fp.remove k).1 = some (GoError.errorsNew "Can't delete, key doesn't exist") := by
    unfold filePersistence.remove
    rcases hx : fp.exists k with ⟨b, st⟩
    rw [hx] at he
    simp only at he
    subst he
    rfl
  refine ⟨⟨h1, h2, h3⟩, ?_, ?_, ?_⟩
  · rw [h1]; rfl
  · rw [h2]; decide
  · rw [h3]; decide

theorem absent_key_not_found_witness :
    ("non-existent" ≠ "" ∧ emptyStore.db.files "record" "non-existent" = none)
      ∧ (emptyStore.read "non-existent").1.2.map GoError.kind = some ErrorKind.NotFound
      ∧ (emptyStore.update "non-existent" "x").1.map GoError.kind = some ErrorKind.NotFound
      ∧ (emptyStore.remove "non-existent").1.map GoError.kind = some ErrorKind.NotFound :=
  ⟨⟨by decide, rfl⟩, (absent_key_not_found emptyStore "non-existent" "x" (by decide) rfl).2⟩

/-- C5: for a non-empty key stored with value `v1` whose existence check reads without
fault, and any value `v2`, when the driver write does not fault, `update` returns no error
and stores `v2` in place of `v1`; a following `read` that the driver does not fault
returns `v2`, and the key still exists. -/
theorem update_then_read (fp : filePersistence) (k v1 v2 : String) (hk : k ≠ "")
    (hpres : fp.db.files "record" k = some { Value := v1 })
    (hr : fp.db.readFault "record" k 0 = none) (hw : fp.db.nextFault = none) :
    (fp.update k v2).1 = none
      ∧ (fp.update k v2).2.db.files "record" k = some { Value := v2 }
      ∧ ((fp.update k v2).2.db.readFault "record" k 0 = none →
          ((fp.update k v2).2.read k).1 = (v2, none)
            ∧ ((fp.update k v2).2.exists k).1 = true) := by
  have h1 : (fp.update k v2).1 = none
      ∧ (fp.update k v2).2.db.files "record" k = some { Value := v2 } := by
    obtain ⟨d, f, s, rs, c⟩ := fp
    rcases s with _ | ⟨_ | t, rest⟩ <;>
      rcases hrs : rs "record" k with _ | ⟨_ | t1, rest1⟩ <;>
      simp_all [filePersistence.update, filePersistence.exists, filePersistence.read,
        Driver.Read, Driver.Write, Driver.nextFault, Driver.readFault]
  refine ⟨h1.1, h1.2, ?_⟩
  intro hr2
  have h2 := read_stored _ k _ hk h1.2 hr2
  refine ⟨h2, ?_⟩
  rw [exists_fst_eq, h2]
  simp

theorem update_then_read_witness :
    ("a" ≠ "" ∧ singleStore.db.files "record" "a" = some { Value := "1" }
        ∧ singleStore.db.readFault "record" "a" 0 = none
        ∧ singleStore.db.nextFault = none
        ∧ (singleStore.update "a" "2").2.db.readFault "record" "a" 0 = none)
      ∧ (singleStore.update "a" "2").1 = none
      ∧ ((singleStore.update "a" "2").2.read "a").1 = ("2", none)
      ∧ ((singleStore.update "a" "2").2.exists "a").1 = true :=
  have h := update_then_read singleStore "a" "1" "2" (by decide) (by decide) rfl rfl
  ⟨⟨by decide, by decide, rfl, rfl, by decide⟩, h.1, h.2.2 (by decide)⟩

/-- C6, as stated, fails when the driver faults on the write of the second `create`: in
`faultyStore` the key "a" is non-empty and stored, `remove` returns no error, and
the following `create` of "a" returns the I/O fault of the driver instead of succeeding. -/
theorem remove_then_create_fault :
    "a" ≠ "" ∧ faultyStore.db.files "record" "a" = some { Value := "1" }
      ∧ (faultyStore.remove "a").1 = none
      ∧ ((faultyStore.remove "a").2.create "a" "2").1 = some (GoError.ioFault "disk full")
      ∧ ((faultyStore.remove "a").2.create "a" "2").1 ≠ none := by
  decide

/-- C6, amended: for a non-empty stored key, when `remove` returns no error, the key no
longer exists and `read` fails with the driver's no-such-record error (of kind not found);
and for every value, when the driver write of a following `create` does not fault, that
`create` succeeds, and `read` then returns the value when the driver does not fault that
read. -/
theorem remove_then_create (fp : filePersistence) (k : String) (r : record) (hk : k ≠ "")
    (hpres : fp.db.files "record" k = some r) (hrem : (fp.remove k).1 = none) :
    ((fp.remove k).2.exists k).1 = false
      ∧ ((fp.remove k).2.read k).1 = ("", some (GoError.noRecord "record" k))
      ∧ (GoError.noRecord "record" k).kind = ErrorKind.NotFound
      ∧ ∀ v : String, (fp.remove k).2.db.nextFault = none →
          ((fp.remove k).2.create k v).1 = none
            ∧ (((fp.remove k).2.create k v).2.db.readFault "record" k 0 = none →
                (((fp.remove k).2.create k v).2.read k).1 = (v, none)) := by
  have hgone : (fp.remove k).2.db.files "record" k = none := by
    obtain ⟨d, f, s, rs, c⟩ := fp
    rcases s with _ | ⟨_ | t, rest⟩ <;>
      rcases hrs : rs "record" k with _ | ⟨_ | t1, rest1⟩ <;>
      simp_all [filePersistence.remove, filePersistence.exists, filePersistence.read,
        Driver.Read, Driver.Delete, Driver.nextFault, Driver.readFault]
  refine ⟨exists_absent _ k hk hgone, ?_, rfl, ?_⟩
  · rw [read_fst _ k hk, hgone]
  · intro v hw
    have h := create_absent _ k v hk hgone hw
    exact ⟨h.1, h.2.2.1⟩

theorem remove_then_create_witness :
    ("a" ≠ "" ∧ singleStore.db.files "record" "a" = some { Value := "1" }
        ∧ (singleStore.remove "a").1 = none
        ∧ (singleStore.remove "a").2.db.nextFault = none
        ∧ ((singleStore.remove "a").2.create "a" "2").2.db.readFault "record" "a" 0 = none)
      ∧ ((singleStore.remove "a").2.exists "a").1 = false
      ∧ ((singleStore.remove "a").2.read "a").1 = ("", some (GoError.noRecord "record" "a"))
      ∧ ((singleStore.remove "a").2.create "a" "2").1 = none
      ∧ (((singleStore.remove "a").2.create "a" "2").2.read "a").1 = ("2", none) :=
  have h := remove_then_create singleStore "a" { Value := "1" } (by decide) (by decide)
    (by decide)
  ⟨⟨by decide, by decide, by decide, by decide, by decide⟩, h.1, h.2.1,
    (h.2.2.2 "2" (by decide)).1, (h.2.2.2 "2" (by decide)).2 (by decide)⟩

/-! ## The upsert -/

/-- C7, as stated, fails when the driver faults on the read behind the second existence
check: in `flakySingleStore` the key "a" is present (`read` succeeds), `update` returns no
error and stores the new value, while `createIfNonExistentElseUpdate` passes its own
existence check, fails in `update` with the key-doesn't-exist error and leaves the old
value. -/
theorem upsert_read_fault :
    (flakySingleStore.read "a").1 = ("1", none)
      ∧ (flakySingleStore.update "a" "2").1 = none
      ∧ (flakySingleStore.createIfNonExistentElseUpdate "a" "2").1
          = some (GoError.errorsNew "Can't update, key doesn't exist")
      ∧ (flakySingleStore.createIfNonExistentElseUpdate "a" "2").1
          ≠ (flakySingleStore.update "a" "2").1
      ∧ (flakySingleStore.update "a" "2").2.db.files "record" "a" = some { Value := "2" }
      ∧ (flakySingleStore.createIfNonExistentElseUpdate "a" "2").2.db.files "record" "a"
          = some { Value := "1" } := by
  decide

/-- C7, amended: when the driver does not fault the two reads of the key behind the
existence checks, `createIfNonExistentElseUpdate` returns the error of `update` and leaves
the store of `update` (same directory, records and write script) when `read` of the key
succeeds, and the error and the store of `create` when `read` of the key fails. -/
theorem upsert_as_update_or_create (fp : filePersistence) (k v : String)
    (hr0 : fp.db.readFault "record" k 0 = none) (hr1 : fp.db.readFault "record" k 1 = none) :
    (fp.createIfNonExistentElseUpdate k v).1
        = (if (fp.read k).1.2 = none then fp.update k v else fp.create k v).1
      ∧ sameStore (fp.createIfNonExistentElseUpdate k v).2
          (if (fp.read k).1.2 = none then fp.update k v else fp.create k v).2 := by
  obtain ⟨d, f, s, rs, c⟩ := fp
  by_cases hk : k = ""
  · subst hk
    simp [createIfNonExistentElseUpdate_eq, exists_empty, read_empty, sameStore]
  · cases hf : f "record" k <;> rcases s with _ | ⟨_ | t, rest⟩ <;>
      rcases hrs : rs "record" k with _ | ⟨_ | t1, _ | ⟨_ | t2, rest2⟩⟩ <;>
      simp_all [filePersistence.createIfNonExistentElseUpdate, filePersistence.create,
        filePersistence.update, filePersistence.exists, filePersistence.read,
        Driver.Read, Driver.Write, Driver.nextFault, Driver.readFault, sameStore]

theorem upsert_as_update_or_create_witness :
    (singleStore.db.readFault "record" "a" 0 = none
        ∧ singleStore.db.readFault "record" "a" 1 = none
        ∧ (singleStore.read "a").1.2 = none)
      ∧ (singleStore.createIfNonExistentElseUpdate "a" "2").1 = (singleStore.update "a" "2").1
      ∧ sameStore (singleStore.createIfNonExistentElseUpdate "a" "2").2
          (singleStore.update "a" "2").2 :=
  ⟨⟨rfl, rfl, by decide⟩,
    upsert_as_update_or_create singleStore "a" "2" rfl rfl⟩

/-- C8: for a non-empty key, when the driver faults neither the write nor the two reads
behind the existence checks, `createIfNonExistentElseUpdate` returns no error whether or
not the key exists and stores the value, and a following `read` that the driver does not
fault returns the value; when the driver does not fault a second call with the same value
either, that call succeeds too and `read` returns the value again. -/
theorem upsert_succeeds (fp : filePersistence) (k v : String) (hk : k ≠ "")
    (hw : fp.db.nextFault = none)
    (hr0 : fp.db.readFault "record" k 0 = none) (hr1 : fp.db.readFault "record" k 1 = none) :
    ((fp.createIfNonExistentElseUpdate k v).1 = none
        ∧ (fp.createIfNonExistentElseUpdate k v).2.db.files "record" k = some { Value := v }
        ∧ ((fp.createIfNonExistentElseUpdate k v).2.db.readFault "record" k 0 = none →
            ((fp.createIfNonExistentElseUpdate k v).2.read k).1 = (v, none)))
      ∧ ((fp.createIfNonExistentElseUpdate k v).2.db.nextFault = none →
          (fp.createIfNonExistentElseUpdate k v).2.db.readFault "record" k 0 = none →
          (fp.createIfNonExistentElseUpdate k v).2.db.readFault "record" k 1 = none →
          ((fp.createIfNonExistentElseUpdate k v).2.createIfNonExistentElseUpdate k v).1 = none
            ∧ (((fp.createIfNonExistentElseUpdate k v).2.createIfNonExistentElseUpdate
                  k v).2.db.readFault "record" k 0 = none →
                (((fp.createIfNonExistentElseUpdate k v).2.createIfNonExistentElseUpdate
                  k v).2.read k).1 = (v, none))) := by
  have once : ∀ st : filePersistence, st.db.nextFault = none →
      st.db.readFault "record" k 0 = none → st.db.readFault "record" k 1 = none →
      (st.createIfNonExistentElseUpdate k v).1 = none
        ∧ (st.createIfNonExistentElseUpdate k v).2.db.files "record" k = some { Value := v }
        ∧ ((st.createIfNonExistentElseUpdate k v).2.db.readFault "record" k 0 = none →
            ((st.createIfNonExistentElseUpdate k v).2.read k).1 = (v, none)) := by
    intro st hst h0 h1
    have h : (st.createIfNonExistentElseUpdate k v).1 = none
        ∧ (st.createIfNonExistentElseUpdate k v).2.db.files "record" k
            = some { Value := v } := by
      obtain ⟨d, f, s, rs, c⟩ := st
      cases hf : f "record" k <;> rcases s with _ | ⟨_ | t, rest⟩ <;>
        rcases hrs : rs "record" k with _ | ⟨_ | t1, _ | ⟨_ | t2, rest2⟩⟩ <;>
        simp_all [filePersistence.createIfNonExistentElseUpdate, filePersistence.create,
          filePersistence.update, filePersistence.exists, filePersistence.read,
          Driver.Read, Driver.Write, Driver.nextFault, Driver.readFault]
    exact ⟨h.1, h.2, fun hr => read_stored _ k _ hk h.2 hr⟩
  refine ⟨once fp hw hr0 hr1, ?_⟩
  intro hw2 h0 h1
  have h := once _ hw2 h0 h1
  exact ⟨h.1, h.2.2⟩

theorem upsert_succeeds_witness :
    ("b" ≠ "" ∧ emptyStore.db.nextFault = none
        ∧ emptyStore.db.readFault "record" "b" 0 = none
        ∧ emptyStore.db.readFault "record" "b" 1 = none
        ∧ (emptyStore.createIfNonExistentElseUpdate "b" "x").2.db.nextFault = none)
      ∧ (emptyStore.createIfNonExistentElseUpdate "b" "x").1 = none
      ∧ ((emptyStore.createIfNonExistentElseUpdate "b" "x").2.read "b").1 = ("x", none)
      ∧ ((emptyStore.createIfNonExistentElseUpdate "b" "x").2.createIfNonExistentElseUpdate
            "b" "x").1 = none
      ∧ (((emptyStore.createIfNonExistentElseUpdate "b" "x").2.createIfNonExistentElseUpdate
            "b" "x").2.read "b").1 = ("x", none) :=
  have h := upsert_succeeds emptyStore "b" "x" (by decide) rfl rfl rfl
  ⟨⟨by decide, rfl, rfl, rfl, by decide⟩, h.1.1, h.1.2.2 (by decide),
    (h.2 (by decide) (by decide) (by decide)).1,
    (h.2 (by decide) (by decide) (by decide)).2 (by decide)⟩

/-! ## The empty key and the frame -/

/-- C9: with the empty string as key, `create`, `read`, `update`, `remove` and
`createIfNonExistentElseUpdate` each return an error and hand back the very state they
were given: no driver `Read`, `Write` or `Delete` call is logged and the records are
unchanged. -/
theorem empty_key_no_driver_call (fp : filePersistence) (v : String) :
    ((fp.create "" v).1 ≠ none ∧ (fp.create "" v).2 = fp)
      ∧ ((fp.read "").1.2 ≠ none ∧ (fp.read "").2 = fp)
      ∧ ((fp.update "" v).1 ≠ none ∧ (fp.update "" v).2 = fp)
      ∧ ((fp.remove "").1 ≠ none ∧ (fp.remove "").2 = fp)
      ∧ ((fp.createIfNonExistentElseUpdate "" v).1 ≠ none
          ∧ (fp.createIfNonExistentElseUpdate "" v).2 = fp) := by
  refine ⟨?_, ?_, ?_, ?_, ?_⟩
  · simp [filePersistence.create, exists_empty]
  · simp [read_empty]
  · simp [filePersistence.update, exists_empty]
  · simp [filePersistence.remove, exists_empty]
  · simp [createIfNonExistentElseUpdate_eq, filePersistence.create, exists_empty]

/-- C10: for distinct keys `k` and `k2`, after `create`, `update`, `remove` or
`createIfNonExistentElseUpdate` on `k`, succeeded or failed, `read` of `k2` returns the
value or the failure it returned before the call. -/
theorem other_key_unchanged (fp : filePersistence) (k k2 v : String) (hne : k ≠ k2) :
    ((fp.create k v).2.read k2).1 = (fp.read k2).1
      ∧ ((fp.update k v).2.read k2).1 = (fp.read k2).1
      ∧ ((fp.remove k).2.read k2).1 = (fp.read k2).1
      ∧ ((fp.createIfNonExistentElseUpdate k v).2.read k2).1 = (fp.read k2).1 := by
  obtain ⟨he, hc, hu, hr⟩ := other_record_frame fp k k2 v hne
  refine ⟨read_fst_congr _ _ k2 hc.1 hc.2, read_fst_congr _ _ k2 hu.1 hu.2,
    read_fst_congr _ _ k2 hr.1 hr.2, ?_⟩
  obtain ⟨-, hc1, hu1, -⟩ := other_record_frame (fp.exists k).2 k k2 v hne
  rw [createIfNonExistentElseUpdate_eq]
  split
  · exact read_fst_congr _ _ k2 (hu1.1.trans he.1) (hu1.2.trans he.2)
  · exact read_fst_congr _ _ k2 (hc1.1.trans he.1) (hc1.2.trans he.2)

theorem other_key_unchanged_witness :
    "b" ≠ "a"
      ∧ ((singleStore.create "b" "2").2.read "a").1 = (singleStore.read "a").1
      ∧ ((singleStore.update "b" "2").2.read "a").1 = (singleStore.read "a").1
      ∧ ((singleStore.remove "b").2.read "a").1 = (singleStore.read "a").1
      ∧ ((singleStore.createIfNonExistentElseUpdate "b" "2").2.read "a").1
          = (singleStore.read "a").1 :=
  ⟨by decide, other_key_unchanged singleStore "b" "a" "2" (by decide)⟩

end FsKeyValueStore
